import Mathlib

/-!
Verification development for the faceitelo repository: a TypeScript HTTP
proxy (`src/server.ts`, plus a simpler variant of the same file) that looks
up a FACEIT player's elo/level, normalizes the upstream payload, caches the
result, and (in the extended variant) aggregates today's match history.

The TypeScript is shallowly embedded below.  JS `undefined`/`null` field
values are modelled as `Option.none`; JS truthiness of strings is
`s ≠ ""`, of numbers `n ≠ 0`.  Numbers are modelled as `Int` (all values
the code handles are integers).  The in-memory `Map` cache is an
association list with explicit `now` passed where the code reads
`Date.now()`.
-/

namespace Faceitelo

/-- JS `a || b` on possibly-absent strings: a falsy (absent or empty)
left operand falls through to the right. -/
def truthyS (o : Option String) : Option String :=
  match o with
  | some s => if s = "" then none else some s
  | none => none

/-- JS truthiness filter for numbers: `0` is falsy. -/
def truthyI (o : Option Int) : Option Int :=
  match o with
  | some n => if n = 0 then none else some n
  | none => none

/-- JS `String.prototype.includes`: substring (infix) containment. -/
def strContains (s pat : String) : Bool :=
  decide (pat.toList <:+: s.toList)

/-- JS `String.prototype.toLowerCase` (character-wise lowercasing). -/
def jsToLower (s : String) : String :=
  ⟨s.data.map Char.toLower⟩

/-! ## Cache (`src/server.ts` lines 21-38)

```ts
type CacheEntry = { value: any; expire: number };
const cache = new Map<string, CacheEntry>();
function setCache(key, value, ttl = 30_000) {
  cache.set(key, { value, expire: Date.now() + ttl });
}
function getCache(key) {
  const item = cache.get(key);
  if (!item) return null;
  if (Date.now() > item.expire) { cache.delete(key); return null; }
  return item.value;
}
```
-/

structure CacheEntry (α : Type) where
  value : α
  expire : Int
deriving Repr, DecidableEq

/-- The `Map` keyed by strings, as an association list (first binding wins,
as `Map.set` below removes any previous binding). -/
abbrev Cache (α : Type) : Type := List (String × CacheEntry α)

/-- Models `Map.prototype.get`. -/
def mapGet {α : Type} (c : Cache α) (key : String) : Option (CacheEntry α) :=
  (c.find? (fun p => p.1 == key)).map (·.2)

/-- Models `Map.prototype.delete`. -/
def mapDelete {α : Type} (c : Cache α) (key : String) : Cache α :=
  c.filter (fun p => ¬ p.1 == key)

/-- Models `Map.prototype.set` (overwrites any existing binding for the key). -/
def mapSet {α : Type} (c : Cache α) (key : String) (e : CacheEntry α) : Cache α :=
  (key, e) :: mapDelete c key

/-- Models `setCache(key, value, ttl)` with `Date.now()` passed explicitly. -/
def setCache {α : Type} (c : Cache α) (now : Int) (key : String) (value : α)
    (ttl : Int) : Cache α :=
  mapSet c key ⟨value, now + ttl⟩

/-- Models `getCache(key)` with `Date.now()` passed explicitly; returns the value
(or `none`) together with the cache state after the call (the expired
branch mutates the map by deleting the entry). -/
def getCache {α : Type} (c : Cache α) (now : Int) (key : String) :
    Option α × Cache α :=
  match mapGet c key with
  | none => (none, c)
  | some item =>
    if now > item.expire then (none, mapDelete c key)
    else (some item.value, c)

/-! ## Upstream player payload (`src/server.ts` lines 12-19, 72-109)

```ts
type GameData = { name?; game_id?; slug?; skill_level?; faceit_elo?; ... };
```
`data.games` arrives as an ordered list, a keyed mapping, or is absent;
`data.game` may hold a single embedded object.  Entries of a list/mapping
can be `null` (the code guards `if (!g) return false`), hence
`Option GameData` elements. -/

structure GameData where
  name : Option String := none
  game_id : Option String := none
  slug : Option String := none
  skill_level : Option Int := none
  faceit_elo : Option Int := none
deriving Repr, DecidableEq

inductive GamesField where
  /-- `data.games` is absent (or not an object). -/
  | absent : GamesField
  /-- `Array.isArray(data.games)`. -/
  | arr : List (Option GameData) → GamesField
  /-- a keyed object; `Object.values` returns the values in key order. -/
  | map : List (String × Option GameData) → GamesField
deriving Repr, DecidableEq

structure PlayerData where
  nickname : Option String := none
  player_id : Option String := none
  playerId : Option String := none
  skill_level : Option Int := none
  faceit_elo : Option Int := none
  games : GamesField := .absent
  game : Option GameData := none
deriving Repr, DecidableEq

/-- Lines 77-84: normalizes `data.games` / `data.game` into `gamesArray`.

```ts
let gamesArray: GameData[] = [];
if (Array.isArray(data.games)) gamesArray = data.games;
else if (data.games && typeof data.games === "object")
  gamesArray = Object.values(data.games);
else if (data.game && typeof data.game === "object")
  gamesArray = [data.game];
```
-/
def gamesArrayOf (d : PlayerData) : List (Option GameData) :=
  match d.games with
  | .arr l => l
  | .map l => l.map (·.2)
  | .absent =>
    match d.game with
    | some g => [some g]
    | none => []

/-- Lines 88-94, the predicate of `gamesArray.find`: `gameLower` is the
already-lowercased query.

```ts
if (!g) return false;
const name = (g.name || g.slug || "").toString().toLowerCase();
return name.includes(gameLower) ||
  (g.game_id && g.game_id.toString().toLowerCase().includes(gameLower));
```
-/
def matchesGame (gameLower : String) (g : GameData) : Bool :=
  let name := jsToLower ((truthyS g.name <|> truthyS g.slug).getD "")
  strContains name gameLower ||
    (match truthyS g.game_id with
     | some gid => strContains (jsToLower gid) gameLower
     | none => false)

/-- Lines 87-95: `gamesArray.find(...) || null` (a `null` list entry never
matches, so a found entry is always a real object). -/
def findGameObj (l : List (Option GameData)) (gameLower : String) :
    Option GameData :=
  (l.find? (fun og =>
    match og with
    | some g => matchesGame gameLower g
    | none => false)).bind id

/-- The keyed fallback `data.games[gameLower]`: real property lookup only
when `games` is a keyed object; a string key indexes nothing on an array
(game slugs are non-numeric) and `data.games && ...` short-circuits when
`games` is absent. -/
def keyedLookup (gf : GamesField) (gameLower : String) : Option GameData :=
  match gf with
  | .map l => ((l.find? (fun p => p.1 == gameLower)).map (·.2)).bind id
  | _ => none

/-- Lines 97-101, the raw `level` chain (before `String(...)`):
`gameObj?.skill_level ?? data.skill_level ??
 (data.games && data.games[gameLower]?.skill_level) ?? null`. -/
def rawLevel (d : PlayerData) (game : String) : Option Int :=
  let gameLower := jsToLower game
  ((findGameObj (gamesArrayOf d) gameLower).bind (·.skill_level)) <|>
    d.skill_level <|>
    ((keyedLookup d.games gameLower).bind (·.skill_level))

/-- Lines 102-106, the raw `elo` chain:
`gameObj?.faceit_elo ?? data.faceit_elo ??
 (data.games && data.games[gameLower]?.faceit_elo) ?? null`. -/
def rawElo (d : PlayerData) (game : String) : Option Int :=
  let gameLower := jsToLower game
  ((findGameObj (gamesArrayOf d) gameLower).bind (·.faceit_elo)) <|>
    d.faceit_elo <|>
    ((keyedLookup d.games gameLower).bind (·.faceit_elo))

/-- Extended variant (line 116): `level: level ? String(level) : null`. -/
def levelField (d : PlayerData) (game : String) : Option String :=
  (truthyI (rawLevel d game)).map (fun v => toString v)

/-- Extended variant (line 117): `elo: elo ?? null` — note `0` is kept. -/
def eloFieldExtended (d : PlayerData) (game : String) : Option Int :=
  rawElo d game

/-- Simple variant (`src/unnamed/part_000` lines 99-103, 110):
`const elo = (chain) || null; ... elo: elo ?? null` — `0` maps to `null`. -/
def eloFieldSimple (d : PlayerData) (game : String) : Option Int :=
  truthyI (rawElo d game)

/-- Line 108: `data.player_id || data.playerId || null`. -/
def playerIdOf (d : PlayerData) : Option String :=
  truthyS d.player_id <|> truthyS d.playerId

/-- Line 109: `data.nickname || nick`. -/
def playerNicknameOf (d : PlayerData) (nick : String) : String :=
  (truthyS d.nickname).getD nick

/-! ## Match history (`src/server.ts` lines 126-233, extended variant) -/

/-- An element of a faction roster: either an object carrying
`player_id`/`nickname` (the `players` array) or a bare id string
(the `player_ids` array). -/
inductive FPlayer where
  | obj : Option String → Option String → FPlayer
  | idStr : String → FPlayer
deriving Repr, DecidableEq

namespace FPlayer

def playerIdField : FPlayer → Option String
  | .obj pid _ => pid
  | .idStr _ => none

def nicknameField : FPlayer → Option String
  | .obj _ pnick => pnick
  | .idStr _ => none

end FPlayer

structure Faction where
  players : Option (List FPlayer) := none
  player_ids : Option (List String) := none
deriving Repr, DecidableEq

structure Teams where
  faction1 : Option Faction := none
  faction2 : Option Faction := none
deriving Repr, DecidableEq

structure MatchResults where
  winner : Option String := none
  winner_team : Option String := none
deriving Repr, DecidableEq

structure MatchItem where
  started_at : Option Int := none
  startedAt : Option Int := none
  teams : Option Teams := none
  results : Option MatchResults := none
deriving Repr, DecidableEq

structure HistData where
  items : List MatchItem := []
  total : Option Int := none
deriving Repr, DecidableEq

/-- Lines 181-183 / 196-198:
`Array.isArray(f.players) ? f.players : f.player_ids ?? []`. -/
def factionPlayers (f : Faction) : List FPlayer :=
  match f.players with
  | some l => l
  | none => (f.player_ids.getD []).map .idStr

/-- Lines 185-189 / 200-204, the `some` predicate over a roster element:
`p.player_id ? p.player_id === playerId : p === playerId || p.nickname === playerNickname`
(`playerId` may be `null`, in which case `===` against a string is false;
`p === playerId` only holds for a bare id string). -/
def fplayerMatches (playerId : Option String) (playerNickname : String)
    (p : FPlayer) : Bool :=
  match truthyS p.playerIdField with
  | some pid => playerId == some pid
  | none =>
    (match p with
     | .idStr s => playerId == some s
     | .obj _ _ => false) ||
    p.nicknameField == some playerNickname

/-- Lines 175-212: determine `playerFaction` — `"faction1"` if the first
faction's roster contains the player, else `"faction2"` if the second
does, else `null`. -/
def playerFaction (playerId : Option String) (playerNickname : String)
    (m : MatchItem) : Option String :=
  match m.teams with
  | none => none
  | some t =>
    let inF1 :=
      match t.faction1 with
      | some f1 => (factionPlayers f1).any (fplayerMatches playerId playerNickname)
      | none => false
    if inF1 then some "faction1"
    else
      match t.faction2 with
      | some f2 =>
        if (factionPlayers f2).any (fplayerMatches playerId playerNickname) then
          some "faction2"
        else none
      | none => none

/-- Line 215: `m.results?.winner ?? m.results?.winner_team ?? null`. -/
def rawWinner (m : MatchItem) : Option String :=
  (m.results.bind (·.winner)) <|> (m.results.bind (·.winner_team))

/-- The per-match counter increments `(wins, losses, played)` of one
iteration of the loop at lines 167-226: skip when `started_at` is falsy
(line 170) or before local midnight `todayTs` (line 172); otherwise
`played++`, and `wins++`/`losses++` only when both the (truthy) winner
and the player's faction are known (lines 220-225). -/
def matchInc (playerId : Option String) (playerNickname : String)
    (todayTs : Int) (m : MatchItem) : Nat × Nat × Nat :=
  match truthyI (m.started_at <|> m.startedAt) with
  | none => (0, 0, 0)
  | some sec =>
    if sec * 1000 < todayTs then (0, 0, 0)
    else
      match truthyS (rawWinner m), playerFaction playerId playerNickname m with
      | some w, some pf => if w = pf then (1, 0, 1) else (0, 1, 1)
      | _, _ => (0, 0, 1)

/-- One loop iteration: add the per-match increments to the accumulated
`(wins, losses, played)`. -/
def aggStep (playerId : Option String) (playerNickname : String)
    (todayTs : Int) (acc : Nat × Nat × Nat) (m : MatchItem) : Nat × Nat × Nat :=
  let i := matchInc playerId playerNickname todayTs m
  (acc.1 + i.1, acc.2.1 + i.2.1, acc.2.2 + i.2.2)

/-- Lines 157-230: the whole aggregation loop, as a fold accumulating
`(wins, losses, played)` (the loop is guarded by
`historyItems.length > 0`, but on an empty list the fold returns the
initial zeroes, the same as skipping the loop). -/
def aggregate (playerId : Option String) (playerNickname : String)
    (todayTs : Int) (items : List MatchItem) : Nat × Nat × Nat :=
  items.foldl (aggStep playerId playerNickname todayTs) (0, 0, 0)

/-! ## The resolved record (lines 112-233) -/

structure BaseResult where
  nickname : String
  player_id : Option String
  game : String
  level : Option String
  elo : Option Int
  retrieved_at : String
  matches_today : Nat
  wins_today : Nat
  losses_today : Nat
  total_matches : Int
deriving Repr, DecidableEq

/-- Lines 126-154: `historyItems` — empty unless `playerId` is truthy
(line 128) and the history fetch succeeded (lines 141-143; a failure is
caught and leaves the list empty). -/
def historyItemsOf (playerId : Option String)
    (histResult : Except Unit HistData) : List MatchItem :=
  match playerId with
  | none => []
  | some _ =>
    match histResult with
    | .error _ => []
    | .ok h => h.items

/-- Lines 144-147 and 152: `baseResult.total_matches` — `histData.total`
when it is a number, else the item count; `0` when the fetch failed or
was never issued. -/
def totalMatchesOf (playerId : Option String)
    (histResult : Except Unit HistData) : Int :=
  match playerId with
  | none => 0
  | some _ =>
    match histResult with
    | .error _ => 0
    | .ok h =>
      match h.total with
      | some t => t
      | none => (h.items.length : Int)

/-- Lines 112-233 of the extended variant: build `baseResult` from the
player payload `d` and the outcome of the history fetch (`histResult`),
which is only issued when `playerId` is truthy (line 128) and whose
failure leaves `historyItems` empty and `total_matches = 0` (lines
148-153).  `todayTs` is today's local midnight in ms, `nowIso` the
`new Date().toISOString()` string. -/
def resolveExtended (nick game : String) (d : PlayerData)
    (histResult : Except Unit HistData) (todayTs : Int) (nowIso : String) :
    BaseResult :=
  let playerId := playerIdOf d
  let playerNickname := playerNicknameOf d nick
  let items := historyItemsOf playerId histResult
  let agg := aggregate playerId playerNickname todayTs items
  { nickname := playerNickname
    player_id := playerId
    game := game
    level := levelField d game
    elo := eloFieldExtended d game
    retrieved_at := nowIso
    matches_today := agg.2.2
    wins_today := agg.1
    losses_today := agg.2.1
    total_matches := totalMatchesOf playerId histResult }

/-- Lines 236-241: the chat text (`text` format body) of the extended
variant. -/
def chatText (nick game : String) (r : BaseResult) : String :=
  let today :=
    " | Hoje: " ++ toString r.wins_today ++ "W " ++ toString r.losses_today ++
    "L (" ++ toString r.matches_today ++ " partidas) | Total: " ++
    toString r.total_matches
  match truthyI r.elo, truthyS r.level with
  | some e, some l =>
    r.nickname ++ " — ELO: " ++ toString e ++ " | Level: " ++ l ++ today
  | _, some l =>
    r.nickname ++ " — Level: " ++ l ++ today
  | _, none =>
    "Perfil " ++ nick ++ " não encontrado ou sem dados para " ++ game ++ "."

/-! ## Error mapping (`src/server.ts` lines 251-272) -/

/-- The observable pieces of an axios error: `err.response?.status`,
`err.code`, and the raw upstream response body `err.response?.data`
(which the mapping never reads). -/
structure UpstreamErr where
  status : Option Int := none
  code : Option String := none
  body : Option String := none
deriving Repr, DecidableEq

/-- Lines 256-265: the user-facing message ladder. -/
def errorMsg (e : UpstreamErr) : String :=
  if e.status == some 404 then "Player não encontrado"
  else if e.status == some 401 then "API key inválida"
  else if e.status == some 429 then "Rate limit da FACEIT (429)"
  else if e.code == some "ECONNABORTED" then "Timeout ao consultar FACEIT"
  else "Erro ao consultar FACEIT"

/-! ## Request handling (`src/server.ts` lines 40-273) -/

/-- Lines 42-43: `(req.query.x as string)?.toLowerCase() || dflt` — an
absent parameter, or one that lowercases to the empty string, falls back
to the default. -/
def parseParam (dflt : String) (raw : Option String) : String :=
  match raw with
  | none => dflt
  | some s => if jsToLower s = "" then dflt else jsToLower s

/-- Line 53: `` `faceit:${nick}:${game}` ``. -/
def cacheKey (nick game : String) : String :=
  "faceit:" ++ nick ++ ":" ++ game

/-- What line 244 stores in the cache: `{ json: baseResult, text: chatText }`. -/
structure CachedPair where
  json : BaseResult
  text : String
deriving Repr, DecidableEq

/-- The three response shapes the endpoint produces: a 200 JSON record,
a 500 JSON `{error: msg}`, or a 200 `text/plain` body. -/
inductive HandlerResponse where
  | jsonOk : BaseResult → HandlerResponse
  | jsonErr : String → HandlerResponse
  | textRes : String → HandlerResponse
deriving Repr, DecidableEq

/-- The outcome of one request: the response sent, the cache afterwards,
and the list of upstream fetches the handler performed (in order;
`"players"` is the player lookup of line 66, `"history"` the
match-history call of line 131). -/
structure HandlerOutcome where
  resp : HandlerResponse
  cache : Cache CachedPair
  fetches : List String
deriving Repr, DecidableEq

/-- The whole `GET /faceit/:nick` handler of the extended variant
(lines 40-273).  Effects are made explicit: `now`/`todayTs`/`nowIso` stand
for the clock reads, and the upstream answers are passed as the outcomes
`playerAnswer` (what the `axios.get` of line 66 would yield) and
`histAnswer` (line 131); a fetch only appears in `fetches` if the code
actually issues it. -/
def handleRequest (faceitKey : String) (c : Cache CachedPair) (now : Int)
    (nick : String) (rawGame rawFmt : Option String)
    (playerAnswer : Except UpstreamErr PlayerData)
    (histAnswer : Except Unit HistData) (todayTs : Int) (nowIso : String) :
    HandlerOutcome :=
  let game := parseParam "cs2" rawGame
  let fmt := parseParam "json" rawFmt
  if faceitKey = "" then
    { resp :=
        if fmt = "text" then .textRes "FACEIT_KEY não configurada"
        else .jsonErr "FACEIT_KEY não configurada"
      cache := c
      fetches := [] }
  else
    let key := cacheKey nick game
    match getCache c now key with
    | (some cached, c') =>
      { resp := if fmt = "text" then .textRes cached.text else .jsonOk cached.json
        cache := c'
        fetches := [] }
    | (none, c') =>
      match playerAnswer with
      | .error e =>
        { resp :=
            if fmt = "text" then .textRes ("Erro ao buscar ELO — " ++ errorMsg e)
            else .jsonErr (errorMsg e)
          cache := c'
          fetches := ["players"] }
      | .ok d =>
        let r := resolveExtended nick game d histAnswer todayTs nowIso
        let text := chatText nick game r
        { resp := if fmt = "text" then .textRes text else .jsonOk r
          cache := setCache c' now key ⟨r, text⟩ 60000
          fetches :=
            "players" :: (if (playerIdOf d).isSome then ["history"] else []) }

/-! ## Spec-side definitions

These follow the WORDS of the specification (not the code); refinement
theorems below compare them with the embedded code. -/

/-- Spec wording (§4.2 step 2): "Game matching is case-insensitive
substring match against a game name/slug or game identifier" — the query
is a substring of the (display) name or of the game id, comparing both
sides lowercased. -/
def specMatchesGame (query : String) (g : GameData) : Bool :=
  let name := (truthyS g.name <|> truthyS g.slug).getD ""
  strContains (jsToLower name) (jsToLower query) ||
    (match truthyS g.game_id with
     | some gid => strContains (jsToLower gid) (jsToLower query)
     | none => false)

/-- Spec wording (§4.2 step 3 / claim C5): the field is taken "with the
precedence: the matched game-specific object's field first, then the
payload's top-level field, then the keyed-mapping entry games[game]'s
field, and null when none of these yields a present value". -/
def specPrecedence (d : PlayerData) (game : String)
    (field : GameData → Option Int) (topField : Option Int) : Option Int :=
  let gameLower := jsToLower game
  match (findGameObj (gamesArrayOf d) gameLower).bind field with
  | some v => some v
  | none =>
    match topField with
    | some v => some v
    | none =>
      match (keyedLookup d.games gameLower).bind field with
      | some v => some v
      | none => none

/-- Spec wording (claim C6): a history item is counted for today exactly
when its `started_at` timestamp (in seconds; `startedAt` is the code's
alternative spelling) is at or after local midnight `todayTs` (ms). -/
def isTodayMatch (todayTs : Int) (m : MatchItem) : Bool :=
  match m.started_at <|> m.startedAt with
  | some sec => decide (todayTs ≤ sec * 1000)
  | none => false

/-- Spec wording (claim C6): a win — counted today, and the declared
winner equals the faction containing the queried player. -/
def isWinToday (playerId : Option String) (playerNickname : String)
    (todayTs : Int) (m : MatchItem) : Bool :=
  isTodayMatch todayTs m &&
    (match truthyS (rawWinner m), playerFaction playerId playerNickname m with
     | some w, some pf => w = pf
     | _, _ => false)

/-- Spec wording (claim C6): a loss — counted today, winner and faction
both resolvable but different. -/
def isLossToday (playerId : Option String) (playerNickname : String)
    (todayTs : Int) (m : MatchItem) : Bool :=
  isTodayMatch todayTs m &&
    (match truthyS (rawWinner m), playerFaction playerId playerNickname m with
     | some w, some pf => w ≠ pf
     | _, _ => false)

/-! ## Sample data (concrete inputs used by witnesses) -/

def sampleFaction1 : Faction := { players := some [.obj (some "pid1") none] }

def sampleTeams : Teams := { faction1 := some sampleFaction1 }

/-- A history item started at epoch-second 10, won by `faction1`, whose
roster contains player `"pid1"`. -/
def sampleWinItem : MatchItem :=
  { started_at := some 10
    teams := some sampleTeams
    results := some { winner := some "faction1" } }

/-- Like `sampleWinItem` but with no results (unresolvable winner). -/
def sampleUnresolvedItem : MatchItem :=
  { started_at := some 10
    teams := some sampleTeams
    results := none }

def sampleHist : HistData := { items := [sampleWinItem, sampleUnresolvedItem] }

def samplePlayer : PlayerData := { player_id := some "pid1" }

/-- The spec's worked example: `{slug: "cs2", faceit_elo: 1800, skill_level: 7}`. -/
def sampleCs2Game : GameData :=
  { slug := some "cs2", skill_level := some 7, faceit_elo := some 1800 }

/-- A resolved record as it could sit in the cache. -/
def sampleBase : BaseResult :=
  { nickname := "alice"
    player_id := some "pid1"
    game := "cs2"
    level := some "7"
    elo := some 1800
    retrieved_at := "t"
    matches_today := 0
    wins_today := 0
    losses_today := 0
    total_matches := 0 }

def samplePair : CachedPair := { json := sampleBase, text := "cached text" }

/-- A cache holding an entry for `faceit:alice:cs2` that expires at 100. -/
def sampleCache : Cache CachedPair :=
  [(cacheKey "alice" "cs2", ⟨samplePair, 100⟩)]

/-! ## Helper lemmas -/

theorem mapGet_mapDelete {α : Type} (c : Cache α) (key : String) :
    mapGet (mapDelete c key) key = none := by
  induction c with
  | nil => rfl
  | cons p rest ih =>
    by_cases h : p.1 = key
    · simp [mapGet, mapDelete, h] at ih ⊢
    · simp [mapGet, mapDelete, List.find?, h] at ih ⊢

theorem mapGet_mapSet {α : Type} (c : Cache α) (key : String) (e : CacheEntry α) :
    mapGet (mapSet c key e) key = some e := by
  simp [mapGet, mapSet, List.find?]

theorem getCache_of_mapGet_none {α : Type} (c : Cache α) (now : Int) (key : String)
    (h : mapGet c key = none) : getCache c now key = (none, c) := by
  simp [getCache, h]

/-! ## Claim theorems -/

/-- C3: a `get` strictly after the entry's expiry returns absent and
deletes the entry; every subsequent `get` on the key is also absent, until
a fresh `put` makes an unexpired `get` return the new value; conversely,
while `now ≤ expire`, `get` returns the stored value. -/
theorem C3_cache_expiry {α : Type} (c : Cache α) (key : String) (now : Int)
    (e : CacheEntry α) (hfound : mapGet c key = some e) :
    (now ≤ e.expire → (getCache c now key).1 = some e.value) ∧
    (e.expire < now →
      (getCache c now key).1 = none ∧
      mapGet (getCache c now key).2 key = none ∧
      (∀ now2 : Int, (getCache (getCache c now key).2 now2 key).1 = none) ∧
      (∀ (now2 ttl now3 : Int) (v : α), now3 ≤ now2 + ttl →
        (getCache (setCache (getCache c now key).2 now2 key v ttl) now3 key).1 =
          some v)) := by
  constructor
  · intro hle
    have hng : ¬ now > e.expire := by omega
    simp [getCache, hfound, hng]
  · intro hgt
    have hg : now > e.expire := by omega
    have hbranch : getCache c now key = (none, mapDelete c key) := by
      simp [getCache, hfound, hg]
    refine ⟨by simp [hbranch], ?_, ?_, ?_⟩
    · rw [hbranch]
      exact mapGet_mapDelete c key
    · intro now2
      rw [hbranch]
      have h2 := getCache_of_mapGet_none (mapDelete c key) now2 key
        (mapGet_mapDelete c key)
      simp [h2]
    · intro now2 ttl now3 v hle
      rw [hbranch]
      have hset : mapGet (setCache (mapDelete c key) now2 key v ttl) key =
          some ⟨v, now2 + ttl⟩ := mapGet_mapSet _ _ _
      have hng : ¬ now3 > now2 + ttl := by omega
      simp [getCache, hset, hng]

/-- C3 witness: concrete run of the cache contract — unexpired hit,
expired eviction, permanent absence, and recovery by a fresh `put`. -/
theorem C3_cache_expiry_witness :
    (getCache ([("k", (⟨(5 : Int), 100⟩ : CacheEntry Int))]) 50 "k").1 = some 5 ∧
    (getCache ([("k", (⟨(5 : Int), 100⟩ : CacheEntry Int))]) 150 "k").1 = none ∧
    (getCache (getCache ([("k", (⟨(5 : Int), 100⟩ : CacheEntry Int))]) 150 "k").2
      999 "k").1 = none ∧
    (getCache (setCache
        (getCache ([("k", (⟨(5 : Int), 100⟩ : CacheEntry Int))]) 150 "k").2
        200 "k" (7 : Int) 30000) 230 "k").1 = some 7 := by
  have h := C3_cache_expiry ([("k", (⟨(5 : Int), 100⟩ : CacheEntry Int))]) "k"
  refine ⟨(h 50 ⟨5, 100⟩ rfl).1 (by decide), ?_, ?_, ?_⟩
  · exact ((h 150 ⟨5, 100⟩ rfl).2 (by decide)).1
  · exact ((h 150 ⟨5, 100⟩ rfl).2 (by decide)).2.2.1 999
  · exact ((h 150 ⟨5, 100⟩ rfl).2 (by decide)).2.2.2 200 30000 230 7 (by decide)

/-- C2 counterexample: the extended variant keeps a zero rating — with
upstream `faceit_elo: 0` the resolved record's `elo` is `0`, not `null`
(line 117 is `elo ?? null`, which preserves `0`). -/
theorem C2_counterexample :
    eloFieldExtended { faceit_elo := some 0 } "cs2" = some 0 ∧
    (resolveExtended "n" "cs2" { faceit_elo := some 0 } (.error ()) 0 "t").elo =
      some 0 := by
  constructor
  · rfl
  · rfl

/-- C2 (amended): when the raw elo chain yields `0`, the simple variant
(`(chain) || null`) resolves `elo` to `null`, but the extended variant
(`chain ?? null`) resolves it to `0`. -/
theorem C2_zero_elo (d : PlayerData) (game : String)
    (h : rawElo d game = some 0) :
    eloFieldSimple d game = none ∧ eloFieldExtended d game = some 0 := by
  constructor
  · simp [eloFieldSimple, truthyI, h]
  · simp [eloFieldExtended, h]

/-- C2 witness: the amended claim at the concrete payload
`{faceit_elo: 0}`. -/
theorem C2_zero_elo_witness :
    eloFieldSimple { faceit_elo := some 0 } "cs2" = none ∧
    eloFieldExtended { faceit_elo := some 0 } "cs2" = some 0 :=
  C2_zero_elo { faceit_elo := some 0 } "cs2" rfl

/-- C10: a missing `game` query parameter defaults to `"cs2"` and a
missing `format` parameter to `"json"`; a present parameter is lowercased
before any use, so the cache key and the game matching do not depend on
the case of the query parameters. -/
theorem C10_query_defaults :
    parseParam "cs2" none = "cs2" ∧
    parseParam "json" none = "json" ∧
    (∀ s : String, jsToLower s ≠ "" →
      parseParam "cs2" (some s) = jsToLower s ∧
      parseParam "json" (some s) = jsToLower s) ∧
    (∀ s1 s2 : String, jsToLower s1 = jsToLower s2 →
      parseParam "cs2" (some s1) = parseParam "cs2" (some s2) ∧
      parseParam "json" (some s1) = parseParam "json" (some s2) ∧
      (∀ nick : String,
        cacheKey nick (parseParam "cs2" (some s1)) =
          cacheKey nick (parseParam "cs2" (some s2))) ∧
      (∀ g : GameData,
        matchesGame (jsToLower (parseParam "cs2" (some s1))) g =
          matchesGame (jsToLower (parseParam "cs2" (some s2))) g)) := by
  refine ⟨rfl, rfl, ?_, ?_⟩
  · intro s hs
    exact ⟨by simp [parseParam, hs], by simp [parseParam, hs]⟩
  · intro s1 s2 h
    refine ⟨by simp [parseParam, h], by simp [parseParam, h], ?_, ?_⟩
    · intro nick
      simp [parseParam, h]
    · intro g
      simp [parseParam, h]

/-- C10 witness: the case-insensitivity clauses at `"CS2"` vs `"cs2"` and
the lowercasing clause at `"TEXT"`. -/
theorem C10_query_defaults_witness :
    parseParam "cs2" (some "CS2") = parseParam "cs2" (some "cs2") ∧
    cacheKey "alice" (parseParam "cs2" (some "CS2")) =
      cacheKey "alice" (parseParam "cs2" (some "cs2")) ∧
    parseParam "json" (some "TEXT") = "text" := by
  have h := C10_query_defaults
  refine ⟨(h.2.2.2 "CS2" "cs2" (by decide)).1,
          (h.2.2.2 "CS2" "cs2" (by decide)).2.2.1 "alice", ?_⟩
  exact ((h.2.2.1 "TEXT" (by decide)).2).trans (by decide)

/-- C8: the user-facing message of a failed player lookup is (a)
independent of the raw upstream body, (b) always one of the five fixed
strings, and (c) chosen by status/timeout code: 404 → not-found,
401 → invalid credential, 429 → exactly "Rate limit da FACEIT (429)",
connection-timeout (with none of the three statuses) → timeout, anything
else → generic failure; moreover the whole handler outcome ignores the
upstream body. -/
theorem C8_error_mapping :
    (∀ (e : UpstreamErr) (b1 b2 : Option String),
      errorMsg { e with body := b1 } = errorMsg { e with body := b2 }) ∧
    (∀ e : UpstreamErr,
      errorMsg e ∈ ["Player não encontrado", "API key inválida",
        "Rate limit da FACEIT (429)", "Timeout ao consultar FACEIT",
        "Erro ao consultar FACEIT"]) ∧
    (∀ e : UpstreamErr, e.status = some 404 →
      errorMsg e = "Player não encontrado") ∧
    (∀ e : UpstreamErr, e.status = some 401 →
      errorMsg e = "API key inválida") ∧
    (∀ e : UpstreamErr, e.status = some 429 →
      errorMsg e = "Rate limit da FACEIT (429)") ∧
    (∀ e : UpstreamErr, e.status ≠ some 404 → e.status ≠ some 401 →
      e.status ≠ some 429 → e.code = some "ECONNABORTED" →
      errorMsg e = "Timeout ao consultar FACEIT") ∧
    (∀ e : UpstreamErr, e.status ≠ some 404 → e.status ≠ some 401 →
      e.status ≠ some 429 → e.code ≠ some "ECONNABORTED" →
      errorMsg e = "Erro ao consultar FACEIT") ∧
    (∀ (faceitKey : String) (c : Cache CachedPair) (now : Int)
       (nick : String) (rawGame rawFmt : Option String) (e : UpstreamErr)
       (b1 b2 : Option String) (h : Except Unit HistData) (ts : Int)
       (iso : String),
      handleRequest faceitKey c now nick rawGame rawFmt
          (.error { e with body := b1 }) h ts iso =
        handleRequest faceitKey c now nick rawGame rawFmt
          (.error { e with body := b2 }) h ts iso) := by
  have hbody : ∀ (e : UpstreamErr) (b1 b2 : Option String),
      errorMsg { e with body := b1 } = errorMsg { e with body := b2 } := by
    intro e b1 b2
    simp [errorMsg]
  refine ⟨hbody, ?_, ?_, ?_, ?_, ?_, ?_, ?_⟩
  · intro e
    unfold errorMsg
    split
    · simp
    · split
      · simp
      · split
        · simp
        · split <;> simp
  · intro e h
    simp [errorMsg, h]
  · intro e h
    simp [errorMsg, h]
  · intro e h
    simp [errorMsg, h]
  · intro e h404 h401 h429 hcode
    have e404 : (e.status == some 404) = false := by
      simpa using h404
    have e401 : (e.status == some 401) = false := by
      simpa using h401
    have e429 : (e.status == some 429) = false := by
      simpa using h429
    simp [errorMsg, e404, e401, e429, hcode]
  · intro e h404 h401 h429 hcode
    have e404 : (e.status == some 404) = false := by
      simpa using h404
    have e401 : (e.status == some 401) = false := by
      simpa using h401
    have e429 : (e.status == some 429) = false := by
      simpa using h429
    have ecode : (e.code == some "ECONNABORTED") = false := by
      simpa using hcode
    simp [errorMsg, e404, e401, e429, ecode]
  · intro faceitKey c now nick rawGame rawFmt e b1 b2 h ts iso
    have hmsg := hbody e b1 b2
    simp only [handleRequest]
    split
    · rfl
    · split
      · rfl
      · simp [hmsg]

/-- C8 witness: the mapping at concrete errors — status 404, status 429
(body dropped), a body-only change, and a bare timeout code. -/
theorem C8_error_mapping_witness :
    errorMsg { status := some 404 } = "Player não encontrado" ∧
    errorMsg { status := some 429, body := some "raw upstream body" } =
      "Rate limit da FACEIT (429)" ∧
    errorMsg { code := some "ECONNABORTED" } = "Timeout ao consultar FACEIT" ∧
    errorMsg { status := some 500, body := some "oops" } =
      "Erro ao consultar FACEIT" ∧
    errorMsg { status := some 429, body := some "a" } =
      errorMsg { status := some 429, body := some "b" } := by
  have h := C8_error_mapping
  refine ⟨h.2.2.1 _ rfl, h.2.2.2.2.1 _ rfl, ?_, ?_, ?_⟩
  · exact h.2.2.2.2.2.1 _ (by decide) (by decide) (by decide) rfl
  · exact h.2.2.2.2.2.2.1 _ (by decide) (by decide) (by decide) (by decide)
  · exact h.1 { status := some 429 } (some "a") (some "b")

theorem aggregate_shift (pid : Option String) (pnick : String) (ts : Int) :
    ∀ (items : List MatchItem) (acc : Nat × Nat × Nat),
      items.foldl (aggStep pid pnick ts) acc =
        (acc.1 + (aggregate pid pnick ts items).1,
         acc.2.1 + (aggregate pid pnick ts items).2.1,
         acc.2.2 + (aggregate pid pnick ts items).2.2) := by
  intro items
  induction items with
  | nil =>
    intro acc
    simp [aggregate]
  | cons m rest ih =>
    intro acc
    have h1 : aggregate pid pnick ts (m :: rest) =
        rest.foldl (aggStep pid pnick ts) (aggStep pid pnick ts (0, 0, 0) m) := rfl
    rw [List.foldl_cons, ih (aggStep pid pnick ts acc m), h1,
      ih (aggStep pid pnick ts (0, 0, 0) m)]
    simp only [aggStep, Prod.mk.injEq]
    omega

theorem aggregate_cons (pid : Option String) (pnick : String) (ts : Int)
    (m : MatchItem) (items : List MatchItem) :
    aggregate pid pnick ts (m :: items) =
      ((matchInc pid pnick ts m).1 + (aggregate pid pnick ts items).1,
       (matchInc pid pnick ts m).2.1 + (aggregate pid pnick ts items).2.1,
       (matchInc pid pnick ts m).2.2 + (aggregate pid pnick ts items).2.2) := by
  have h : aggregate pid pnick ts (m :: items) =
      items.foldl (aggStep pid pnick ts) (aggStep pid pnick ts (0, 0, 0) m) := rfl
  rw [h, aggregate_shift]
  simp [aggStep]

theorem matchInc_eq_indicator (pid : Option String) (pnick : String)
    (ts : Int) (m : MatchItem) (h : 0 < ts) :
    matchInc pid pnick ts m =
      ((if isWinToday pid pnick ts m then 1 else 0),
       (if isLossToday pid pnick ts m then 1 else 0),
       (if isTodayMatch ts m then 1 else 0)) := by
  unfold matchInc isWinToday isLossToday isTodayMatch
  cases hst : (m.started_at <|> m.startedAt) with
  | none => simp [truthyI]
  | some sec =>
    by_cases h0 : sec = 0
    · subst h0
      have hnot : ¬ ts ≤ (0 : Int) := by omega
      simp [truthyI, hnot]
    · by_cases hlt : sec * 1000 < ts
      · have hnot : ¬ ts ≤ sec * 1000 := by omega
        simp [truthyI, h0, hlt, hnot]
      · have hle : ts ≤ sec * 1000 := by omega
        cases hw : truthyS (rawWinner m) with
        | none => simp [truthyI, h0, hlt, hle, hw]
        | some w =>
          cases hpf : playerFaction pid pnick m with
          | none => simp [truthyI, h0, hlt, hle, hw, hpf]
          | some pf =>
            by_cases heq : w = pf <;>
              simp [truthyI, h0, hlt, hle, hw, hpf, heq]

theorem aggregate_eq_counts (pid : Option String) (pnick : String)
    (ts : Int) (items : List MatchItem) (h : 0 < ts) :
    aggregate pid pnick ts items =
      ((items.filter (isWinToday pid pnick ts)).length,
       (items.filter (isLossToday pid pnick ts)).length,
       (items.filter (isTodayMatch ts)).length) := by
  induction items with
  | nil => simp [aggregate]
  | cons m rest ih =>
    rw [aggregate_cons, ih, matchInc_eq_indicator pid pnick ts m h]
    simp only [List.filter_cons]
    by_cases hw : isWinToday pid pnick ts m <;>
      by_cases hl : isLossToday pid pnick ts m <;>
        by_cases ht : isTodayMatch ts m <;>
          simp [hw, hl, ht, Prod.mk.injEq] <;> omega

theorem matchInc_bounds (pid : Option String) (pnick : String) (ts : Int)
    (m : MatchItem) :
    (matchInc pid pnick ts m).1 + (matchInc pid pnick ts m).2.1 ≤
        (matchInc pid pnick ts m).2.2 ∧
      (matchInc pid pnick ts m).2.2 ≤ 1 := by
  unfold matchInc
  cases truthyI (m.started_at <|> m.startedAt) with
  | none => simp
  | some sec =>
    by_cases hlt : sec * 1000 < ts
    · simp [hlt]
    · simp only [hlt, if_false]
      cases truthyS (rawWinner m) with
      | none => simp
      | some w =>
        cases playerFaction pid pnick m with
        | none => simp
        | some pf =>
          by_cases heq : w = pf <;> simp [heq]

theorem aggregate_bounds (pid : Option String) (pnick : String) (ts : Int)
    (items : List MatchItem) :
    (aggregate pid pnick ts items).1 + (aggregate pid pnick ts items).2.1 ≤
        (aggregate pid pnick ts items).2.2 ∧
      (aggregate pid pnick ts items).2.2 ≤ items.length := by
  induction items with
  | nil => simp [aggregate]
  | cons m rest ih =>
    rw [aggregate_cons]
    have hb := matchInc_bounds pid pnick ts m
    simp only [List.length_cons]
    omega

/-- C6: in the extended variant, the resolved daily counters are exactly
the declarative counts over the history items: `matches_today` counts the
items whose `started_at` is at or after local midnight, `wins_today`
those of them where the declared winner equals the faction containing the
queried player (membership by player id or, failing that, nickname), and
`losses_today` those where winner and faction are both resolvable but
differ — so a counted match with unresolvable winner or faction
contributes to `matches_today` only. -/
theorem C6_today_aggregation (nick game nowIso : String) (d : PlayerData)
    (hdata : HistData) (ts : Int) (h : 0 < ts)
    (hpid : (playerIdOf d).isSome) :
    (resolveExtended nick game d (.ok hdata) ts nowIso).wins_today =
      (hdata.items.filter
        (isWinToday (playerIdOf d) (playerNicknameOf d nick) ts)).length ∧
    (resolveExtended nick game d (.ok hdata) ts nowIso).losses_today =
      (hdata.items.filter
        (isLossToday (playerIdOf d) (playerNicknameOf d nick) ts)).length ∧
    (resolveExtended nick game d (.ok hdata) ts nowIso).matches_today =
      (hdata.items.filter (isTodayMatch ts)).length := by
  obtain ⟨p, hp⟩ := Option.isSome_iff_exists.mp hpid
  have hitems : historyItemsOf (playerIdOf d) (.ok hdata) = hdata.items := by
    simp [historyItemsOf, hp]
  have hagg := aggregate_eq_counts (playerIdOf d) (playerNicknameOf d nick)
    ts hdata.items h
  refine ⟨?_, ?_, ?_⟩ <;>
    simp [resolveExtended, hitems, hagg]

/-- C6 witness: one history item inside today's window won by the
player's faction (membership by player id) is counted as one match and
one win; an item with an unresolvable winner counts as a match only. -/
theorem C6_today_aggregation_witness :
    (resolveExtended "alice" "cs2" samplePlayer (.ok sampleHist)
      1000 "t").wins_today = 1 ∧
    (resolveExtended "alice" "cs2" samplePlayer (.ok sampleHist)
      1000 "t").losses_today = 0 ∧
    (resolveExtended "alice" "cs2" samplePlayer (.ok sampleHist)
      1000 "t").matches_today = 2 := by
  have h := C6_today_aggregation "alice" "cs2" "t" samplePlayer sampleHist
    1000 (by decide) (by decide)
  exact ⟨h.1.trans (by decide), h.2.1.trans (by decide),
    h.2.2.trans (by decide)⟩

/-- C9: for every history payload the resolved counters satisfy
`wins_today + losses_today ≤ matches_today`, `matches_today` is at most
the number of history items, and (being naturals that start at zero and
only increment) all three are non-negative. -/
theorem C9_counter_invariants (nick game nowIso : String) (d : PlayerData)
    (hdata : HistData) (ts : Int) :
    (resolveExtended nick game d (.ok hdata) ts nowIso).wins_today +
        (resolveExtended nick game d (.ok hdata) ts nowIso).losses_today ≤
      (resolveExtended nick game d (.ok hdata) ts nowIso).matches_today ∧
    (resolveExtended nick game d (.ok hdata) ts nowIso).matches_today ≤
      hdata.items.length ∧
    0 ≤ (resolveExtended nick game d (.ok hdata) ts nowIso).wins_today ∧
    0 ≤ (resolveExtended nick game d (.ok hdata) ts nowIso).losses_today ∧
    0 ≤ (resolveExtended nick game d (.ok hdata) ts nowIso).matches_today := by
  cases hp : playerIdOf d with
  | none =>
    have hitems : historyItemsOf (playerIdOf d) (.ok hdata) = [] := by
      simp [historyItemsOf, hp]
    simp [resolveExtended, hitems, aggregate]
  | some p =>
    have hitems : historyItemsOf (playerIdOf d) (.ok hdata) = hdata.items := by
      simp [historyItemsOf, hp]
    have hb := aggregate_bounds (playerIdOf d) (playerNicknameOf d nick)
      ts hdata.items
    simp only [resolveExtended, hitems]
    exact ⟨hb.1, hb.2, Nat.zero_le _, Nat.zero_le _, Nat.zero_le _⟩

/-- C7: when the secondary match-history fetch fails, the resolved record
has zero `matches_today`/`wins_today`/`losses_today`/`total_matches`,
while `nickname`, `player_id`, `game`, `level` and `elo` are exactly what
they would be for any history outcome; and the whole request (starting
from an empty cache, with a configured key and a player payload whose id
is present so the history fetch is actually issued) still succeeds,
answering with the resolved record. -/
theorem C7_history_failure (nick game nowIso faceitKey : String)
    (d : PlayerData) (hist2 : Except Unit HistData) (ts now : Int)
    (rawGame rawFmt : Option String)
    (hkey : ¬ faceitKey = "") (hpid : (playerIdOf d).isSome) :
    (resolveExtended nick game d (.error ()) ts nowIso).matches_today = 0 ∧
    (resolveExtended nick game d (.error ()) ts nowIso).wins_today = 0 ∧
    (resolveExtended nick game d (.error ()) ts nowIso).losses_today = 0 ∧
    (resolveExtended nick game d (.error ()) ts nowIso).total_matches = 0 ∧
    (resolveExtended nick game d (.error ()) ts nowIso).nickname =
      (resolveExtended nick game d hist2 ts nowIso).nickname ∧
    (resolveExtended nick game d (.error ()) ts nowIso).player_id =
      (resolveExtended nick game d hist2 ts nowIso).player_id ∧
    (resolveExtended nick game d (.error ()) ts nowIso).game =
      (resolveExtended nick game d hist2 ts nowIso).game ∧
    (resolveExtended nick game d (.error ()) ts nowIso).level =
      (resolveExtended nick game d hist2 ts nowIso).level ∧
    (resolveExtended nick game d (.error ()) ts nowIso).elo =
      (resolveExtended nick game d hist2 ts nowIso).elo ∧
    (handleRequest faceitKey [] now nick rawGame rawFmt (.ok d) (.error ())
        ts nowIso).resp =
      (if parseParam "json" rawFmt = "text" then
        HandlerResponse.textRes (chatText nick (parseParam "cs2" rawGame)
          (resolveExtended nick (parseParam "cs2" rawGame) d (.error ())
            ts nowIso))
      else
        HandlerResponse.jsonOk (resolveExtended nick (parseParam "cs2" rawGame)
          d (.error ()) ts nowIso)) ∧
    (handleRequest faceitKey [] now nick rawGame rawFmt (.ok d) (.error ())
        ts nowIso).fetches = ["players", "history"] := by
  have hitems : historyItemsOf (playerIdOf d) (.error ()) = [] := by
    cases hp : playerIdOf d <;> simp [historyItemsOf, hp]
  have htotal : totalMatchesOf (playerIdOf d) (.error ()) = 0 := by
    cases hp : playerIdOf d <;> simp [totalMatchesOf, hp]
  have hmget : mapGet ([] : Cache CachedPair)
      (cacheKey nick (parseParam "cs2" rawGame)) = none := rfl
  refine ⟨?_, ?_, ?_, ?_, rfl, rfl, rfl, rfl, rfl, ?_, ?_⟩
  · simp [resolveExtended, hitems, aggregate]
  · simp [resolveExtended, hitems, aggregate]
  · simp [resolveExtended, hitems, aggregate]
  · simp [resolveExtended, htotal]
  · simp [handleRequest, hkey, getCache, hmget]
  · simp [handleRequest, hkey, getCache, hmget, hpid]

/-- C7 witness: concrete run with `samplePlayer` and a failed history
fetch — the lookup answers with the record, zeroed daily counters, and
both upstream calls were attempted. -/
theorem C7_history_failure_witness :
    (resolveExtended "alice" "cs2" samplePlayer (.error ()) 1000
      "t").matches_today = 0 ∧
    (resolveExtended "alice" "cs2" samplePlayer (.error ()) 1000
      "t").wins_today = 0 ∧
    (resolveExtended "alice" "cs2" samplePlayer (.error ()) 1000
      "t").losses_today = 0 ∧
    (resolveExtended "alice" "cs2" samplePlayer (.error ()) 1000
      "t").total_matches = 0 ∧
    (handleRequest "key" [] 0 "alice" none none (.ok samplePlayer)
      (.error ()) 1000 "t").resp =
      HandlerResponse.jsonOk
        (resolveExtended "alice" "cs2" samplePlayer (.error ()) 1000 "t") ∧
    (handleRequest "key" [] 0 "alice" none none (.ok samplePlayer)
      (.error ()) 1000 "t").fetches = ["players", "history"] := by
  have h := C7_history_failure "alice" "cs2" "t" "key" samplePlayer
    (.error ()) 1000 0 none none (by decide) (by decide)
  refine ⟨h.1, h.2.1, h.2.2.1, h.2.2.2.1, ?_, h.2.2.2.2.2.2.2.2.2.2⟩
  exact (h.2.2.2.2.2.2.2.2.2.1).trans (by decide)

theorem option_orElse_match {α : Type} (a b c : Option α) :
    (a <|> b <|> c) =
      (match a with
       | some v => some v
       | none =>
         match b with
         | some v => some v
         | none =>
           match c with
           | some v => some v
           | none => none) := by
  cases a <;> cases b <;> cases c <;> rfl

/-- C5: the raw `level` and `elo` chains implement exactly the spec's
precedence (matched game object's field, then top-level field, then keyed
mapping entry, else null), and the `find` predicate implements exactly
case-insensitive substring matching of the query against the game's
name/slug or game id. -/
theorem C5_precedence_and_matching :
    (∀ (d : PlayerData) (game : String),
      rawLevel d game =
          specPrecedence d game (fun g => g.skill_level) d.skill_level ∧
        rawElo d game =
          specPrecedence d game (fun g => g.faceit_elo) d.faceit_elo) ∧
    (∀ (query : String) (g : GameData),
      matchesGame (jsToLower query) g = specMatchesGame query g) := by
  refine ⟨?_, ?_⟩
  · intro d game
    constructor
    · simp only [rawLevel, specPrecedence]
      rcases hA : (findGameObj (gamesArrayOf d) (jsToLower game)).bind
          (fun g => g.skill_level) with _ | v1 <;>
        rcases hB : d.skill_level with _ | v2 <;>
          rcases hC : (keyedLookup d.games (jsToLower game)).bind
              (fun g => g.skill_level) with _ | v3 <;>
            simp [hA, hB, hC]
    · simp only [rawElo, specPrecedence]
      rcases hA : (findGameObj (gamesArrayOf d) (jsToLower game)).bind
          (fun g => g.faceit_elo) with _ | v1 <;>
        rcases hB : d.faceit_elo with _ | v2 <;>
          rcases hC : (keyedLookup d.games (jsToLower game)).bind
              (fun g => g.faceit_elo) with _ | v3 <;>
            simp [hA, hB, hC]
  · intro query g
    rfl

theorem findGameObj_single (g : GameData) (q : String)
    (h : matchesGame q g = true) : findGameObj [some g] q = some g := by
  simp [findGameObj, List.find?, h]

theorem chain_shape_eq (field : GameData → Option Int) (top : Option Int)
    (g : GameData) (k q : String) (h : matchesGame q g = true) :
    ((findGameObj [some g] q).bind field <|> top <|>
        ((keyedLookup (.map [(k, some g)]) q).bind field)) =
      ((findGameObj [some g] q).bind field <|> top <|> none) := by
  rw [findGameObj_single g q h]
  cases hf : field g with
  | some v => simp [hf]
  | none =>
    cases htop : top with
    | some t => simp [hf]
    | none =>
      by_cases hk : k = q
      · subst hk
        have hkey : keyedLookup (.map [(k, some g)]) k = some g := by
          simp [keyedLookup, List.find?]
        simp [hf, hkey]
      · have hkb : (k == q) = false := beq_eq_false_iff_ne.mpr hk
        have hkey : keyedLookup (.map [(k, some g)]) q = none := by
          simp [keyedLookup, List.find?, hkb]
        simp [hf, hkey]

/-- C4: when the per-game object `g` carries its own game identity (the
`find` predicate matches it against the query), the resolver produces the
same downstream record whether upstream sends `g` as a one-element list
under `games`, a keyed mapping under `games`, or a single embedded object
under `game`; in particular the spec's worked example
`{games: [{slug:"cs2", faceit_elo: 1800, skill_level: 7}]}` with query
game `cs2` resolves to `level: "7"` and `elo: 1800`. -/
theorem C4_shape_independence :
    (∀ (d : PlayerData) (g : GameData) (k nick game nowIso : String)
       (hist : Except Unit HistData) (ts : Int),
       matchesGame (jsToLower game) g = true →
       (resolveExtended nick game
            { d with games := .arr [some g], game := none } hist ts nowIso =
          resolveExtended nick game
            { d with games := .map [(k, some g)], game := none } hist ts
            nowIso ∧
        resolveExtended nick game
            { d with games := .arr [some g], game := none } hist ts nowIso =
          resolveExtended nick game
            { d with games := .absent, game := some g } hist ts nowIso)) ∧
    levelField { games := .arr [some sampleCs2Game] } "cs2" = some "7" ∧
    eloFieldExtended { games := .arr [some sampleCs2Game] } "cs2" =
      some 1800 := by
  refine ⟨?_, by decide, by decide⟩
  intro d g k nick game nowIso hist ts h
  have hlv : rawLevel { d with games := .arr [some g], game := none } game =
      rawLevel { d with games := .map [(k, some g)], game := none } game :=
    (chain_shape_eq (fun g => g.skill_level) d.skill_level g k
      (jsToLower game) h).symm
  have hel : rawElo { d with games := .arr [some g], game := none } game =
      rawElo { d with games := .map [(k, some g)], game := none } game :=
    (chain_shape_eq (fun g => g.faceit_elo) d.faceit_elo g k
      (jsToLower game) h).symm
  have hl2 : levelField { d with games := .arr [some g], game := none } game =
      levelField { d with games := .map [(k, some g)], game := none} game := by
    unfold levelField
    rw [hlv]
  have he2 : eloFieldExtended
      { d with games := .arr [some g], game := none } game =
      eloFieldExtended
        { d with games := .map [(k, some g)], game := none } game := by
    unfold eloFieldExtended
    rw [hel]
  constructor
  · simp only [resolveExtended]
    rw [hl2, he2]
    rfl
  · rfl

/-- C4 witness: the three shapes of the worked example resolve to equal
records. -/
theorem C4_shape_independence_witness :
    resolveExtended "alice" "cs2" { games := .arr [some sampleCs2Game] }
        (.error ()) 1000 "t" =
      resolveExtended "alice" "cs2"
        { games := .map [("cs2", some sampleCs2Game)] } (.error ()) 1000
        "t" ∧
    resolveExtended "alice" "cs2" { games := .arr [some sampleCs2Game] }
        (.error ()) 1000 "t" =
      resolveExtended "alice" "cs2"
        { games := .absent, game := some sampleCs2Game } (.error ()) 1000
        "t" :=
  C4_shape_independence.1 {} sampleCs2Game "cs2" "alice" "cs2" "t"
    (.error ()) 1000 (by decide)

theorem getCache_fst_some {α : Type} (c : Cache α) (now : Int) (key : String)
    (v : α) (h : (getCache c now key).1 = some v) :
    getCache c now key = (some v, c) := by
  unfold getCache at h ⊢
  cases hm : mapGet c key with
  | none =>
    rw [hm] at h
    simp at h
  | some item =>
    rw [hm] at h
    by_cases hexp : now > item.expire
    · simp [hexp] at h
    · simp [hexp] at h
      simp [hexp, h]

/-- C1 counterexample: on a request whose key has an unexpired cache
entry, the handler performs NO upstream fetch at all (so no background
refresh of the key is triggered, contrary to the claim) and leaves the
cache unchanged, returning the cached record. -/
theorem C1_no_refresh_counterexample :
    (getCache sampleCache 50 (cacheKey "alice" (parseParam "cs2" none))).1 =
      some samplePair ∧
    (handleRequest "key" sampleCache 50 "alice" none none
      (.ok samplePlayer) (.error ()) 1000 "t").fetches = [] ∧
    (handleRequest "key" sampleCache 50 "alice" none none
      (.ok samplePlayer) (.error ()) 1000 "t").cache = sampleCache ∧
    (handleRequest "key" sampleCache 50 "alice" none none
      (.ok samplePlayer) (.error ()) 1000 "t").resp =
      HandlerResponse.jsonOk sampleBase := by
  exact ⟨by decide, by decide, by decide, by decide⟩

/-- C1 (amended): for every request on a key with an unexpired cache
entry, the cached value is returned to the caller immediately, and no
refresh happens: the handler issues no upstream fetch and the cache is
left exactly as it was. -/
theorem C1_cache_hit_serves_cached (faceitKey : String)
    (c : Cache CachedPair) (now ts : Int) (nick nowIso : String)
    (rawGame rawFmt : Option String) (pa : Except UpstreamErr PlayerData)
    (ha : Except Unit HistData) (v : CachedPair)
    (hkey : ¬ faceitKey = "")
    (hhit : (getCache c now (cacheKey nick (parseParam "cs2" rawGame))).1 =
      some v) :
    handleRequest faceitKey c now nick rawGame rawFmt pa ha ts nowIso =
      { resp :=
          if parseParam "json" rawFmt = "text" then
            HandlerResponse.textRes v.text
          else HandlerResponse.jsonOk v.json
        cache := c
        fetches := [] } := by
  have hc := getCache_fst_some c now (cacheKey nick (parseParam "cs2" rawGame))
    v hhit
  simp only [handleRequest]
  rw [if_neg hkey, hc]

/-- C1 witness: the amended claim at the concrete unexpired-entry cache. -/
theorem C1_cache_hit_serves_cached_witness :
    handleRequest "key" sampleCache 50 "alice" none none
        (.ok samplePlayer) (.error ()) 1000 "t" =
      { resp := HandlerResponse.jsonOk sampleBase
        cache := sampleCache
        fetches := [] } := by
  have h := C1_cache_hit_serves_cached "key" sampleCache 50 1000 "alice" "t"
    none none (.ok samplePlayer) (.error ()) samplePair (by decide) (by decide)
  exact h.trans (by decide)

end Faceitelo
